import Mathlib

/-!
Shallow embedding of the pynentry protocol client (pynentry.py).

The agent child process is modelled by the list of lines its stdout will
deliver (each line normally ending in a newline character, exactly as the
Python iteration over the stdout file object yields them).  Every protocol
operation is a pure function of that line stream; raised Python exceptions
are modelled by an explicit exception type.
-/

deriving instance DecidableEq for Except

namespace Pynentry

/-- The Python exceptions the client can raise: PinentryError carries the
code and description taken from an ERR line (both are Python strings, the
code being the matched digit group); TypeError models unpacking the None
returned by a failed parse of an ERR line; IndexError models indexing
the last element of an empty response list; KeyError models a dict lookup
of an unrecognised key. -/
inductive PyExc where
  | pinentryError (code : String) (desc : String)
  | typeError
  | indexError
  | keyError
  deriving DecidableEq, Repr

/-- Models Python str.startswith for the examined line. -/
def startsWithChars : List Char → List Char → Bool
  | [], _ => true
  | _ :: _, [] => false
  | p :: ps, c :: cs => p == c && startsWithChars ps cs

/-- line.startswith(pre) on Python strings. -/
def py_startswith (line : String) (pre : String) : Bool :=
  startsWithChars pre.data line.data

/-- Python regex class backslash-s restricted to the ASCII whitespace it
matches (space, tab, newline, carriage return, vertical tab, form feed). -/
def isPySpace (c : Char) : Bool :=
  c == ' ' || c == '\t' || c == '\n' || c == '\r' || c == '\x0b' || c == '\x0c'

/-- A line matches the terminator regex (anchored OK or ERR alternation)
exactly when it starts with OK or with ERR. -/
def is_terminator (line : String) : Bool :=
  py_startswith line "OK" || py_startswith line "ERR"

/-- Models _parse_error: the anchored regex match of literal ERR, one or
more whitespace, a digit group, one or more whitespace, and a greedy
group of non-newline characters; returns the two groups, or nothing when
the line does not match.  All quantifiers resolve deterministically
because whitespace, digits and the rest classes are disjoint. -/
def parse_error (line : String) : Option (String × String) :=
  if py_startswith line "ERR" then
    let r0 := line.data.drop 3
    if r0.takeWhile isPySpace = [] then none
    else
      let r1 := r0.dropWhile isPySpace
      let ds := r1.takeWhile Char.isDigit
      if ds = [] then none
      else
        let r2 := r1.dropWhile Char.isDigit
        if r2.takeWhile isPySpace = [] then none
        else
          let r3 := r2.dropWhile isPySpace
          some (String.mk ds, String.mk (r3.takeWhile (fun c => c != '\n')))
  else none

/-- Models _read_response: read lines from the child stdout until one
matches the terminator regex, inclusive; when the stream is exhausted
first, the accumulated (possibly empty) list is returned as is. -/
def read_response : List String → List String
  | [] => []
  | l :: ls => if is_terminator l then [l] else l :: read_response ls

/-- Models the anchored data-line regex of ask_for_pin: a literal D, a
space, then a greedy group of non-newline characters. -/
def match_data_line (line : String) : Option String :=
  if py_startswith line "D " then
    some (String.mk ((line.data.drop 2).takeWhile (fun c => c != '\n')))
  else none

/-- Models the response epilogue repeated verbatim in Pinentry.__init__,
_set_pinentry_property and show_message: return normally when the last
line starts with OK, raise PinentryError with the parsed code and
description when it starts with ERR (TypeError when the ERR line fails
the _parse_error regex, since the None result is then unpacked), and fall
through returning None on any other line. -/
def check_last_line (last : String) : Except PyExc Unit :=
  if py_startswith last "OK" then .ok ()
  else if py_startswith last "ERR" then
    match parse_error last with
    | none => .error .typeError
    | some cd => .error (.pinentryError cd.1 cd.2)
  else .ok ()

/-- Reads one response and applies the shared epilogue to its last line;
indexing the last element of an empty response raises IndexError. -/
def read_and_check (stream : List String) : Except PyExc Unit :=
  match (read_response stream).getLast? with
  | none => .error .indexError
  | some last => check_last_line last

/-- Models show_message: writes MESSAGE (the write is not part of the
response-side model) and handles the response with the shared epilogue. -/
def show_message (stream : List String) : Except PyExc Unit :=
  read_and_check stream

/-- Models the loop body of ask_for_pin over the lines of one response:
the first line matching the data regex yields its payload; otherwise a
line parsed by the error regex raises PinentryError; a loop that ends
without either returns None. -/
def scan_pin_lines : List String → Except PyExc (Option String)
  | [] => .ok none
  | l :: ls =>
    match match_data_line l with
    | some payload => .ok (some payload)
    | none =>
      match parse_error l with
      | some cd => .error (.pinentryError cd.1 cd.2)
      | none => scan_pin_lines ls

/-- Models ask_for_pin: writes GETPIN and scans the lines of the one
response read from the stream. -/
def ask_for_pin (stream : List String) : Except PyExc (Option String) :=
  scan_pin_lines (read_response stream)

/-- Models ask_for_confirmation: writes CONFIRM, reads one response and
inspects the last line; OK gives True, a well-formed ERR whose parsed
description equals canceled gives False, any other well-formed ERR raises
PinentryError, a malformed ERR raises TypeError from unpacking None, and
any other last line falls through returning None. -/
def ask_for_confirmation (stream : List String) : Except PyExc (Option Bool) :=
  match (read_response stream).getLast? with
  | none => .error .indexError
  | some last =>
    if py_startswith last "OK" then .ok (some true)
    else if py_startswith last "ERR" then
      match parse_error last with
      | none => .error .typeError
      | some cd =>
        if cd.2 = "canceled" then .ok (some false)
        else .error (.pinentryError cd.1 cd.2)
    else .ok none

/-- Models Pinentry.__init__ building the argument vector for Popen: the
binary path, the no-global-grab flag when global_grab is false, the
display pair when the display argument or else the DISPLAY environment
value is present, and finally the timeout pair with str(timeout). -/
def build_proc (binary_path : String) (global_grab : Bool) (timeout : Int)
    (display : Option String) (env_display : Option String) : List String :=
  let disp : Option String :=
    match display with
    | none => env_display
    | some d => some d
  let proc0 := [binary_path]
  let proc1 := if global_grab then proc0 else proc0 ++ ["--no-global-grab"]
  let proc2 :=
    match disp with
    | none => proc1
    | some d => proc1 ++ ["--display", d]
  proc2 ++ ["--timeout", toString timeout]

/-- The child process handle, recording only whether the process is still
running; Popen.terminate makes it not running. -/
structure Proc where
  running : Bool
  deriving DecidableEq, Repr

/-- Popen spawns a running child process. -/
def spawn_proc : Proc := { running := true }

/-- Models Popen.terminate (as delegated to by Pinentry.terminate and by
__del__). -/
def terminate_proc (_p : Proc) : Proc := { running := false }

/-- Models the greeting handling of Pinentry.__init__ after the spawn:
one response is read and its last line goes through the shared epilogue. -/
def init_greeting (stream : List String) : Except PyExc Unit :=
  read_and_check stream

/-- Models constructing a Pinentry session: the child is spawned, the
greeting is consumed, and when __init__ raises, CPython finalises the
partially constructed object at once, invoking __del__, which calls
terminate on the child process.  Returns the construction result together
with the state of the child process afterwards. -/
def init_session (stream : List String) : Except PyExc Unit × Proc :=
  match init_greeting stream with
  | .ok () => (.ok (), spawn_proc)
  | .error e => (.error e, terminate_proc spawn_proc)

/-- The _property_commands table: option name to protocol keyword. -/
def property_commands : List (String × String) :=
  [("description", "SETDESC"),
   ("prompt", "SETPROMPT"),
   ("title", "SETTITLE"),
   ("ok_button_text", "SETOK"),
   ("cancel_button_text", "SETCANCEL"),
   ("error_text", "SETERROR"),
   ("ttyname", "OPTION ttyname"),
   ("ttytype", "OPTION ttytype"),
   ("lc_ctype", "OPTION lc-ctype")]

/-- The _pinentry_properties dict, embedded as a partial map from keys to
stored values: none means the key is absent (indexing raises KeyError),
some v means the key is bound to the Python value v (itself None or a
string). -/
def PropDict : Type := String → Option (Option String)

/-- The _pinentry_properties dict as __init__ fills it: every recognised
option name bound to None, every other key absent. -/
def init_properties : PropDict :=
  fun n => if (property_commands.lookup n).isSome then some none else none

/-- The generated property getter: indexing the dict at the option name,
raising KeyError when the key is absent. -/
def property_getter (props : PropDict) (name : String) :
    Except PyExc (Option String) :=
  match props name with
  | none => .error .keyError
  | some v => .ok v

/-- The dict assignment performed first by the generated property setter. -/
def set_property_local (props : PropDict) (name : String)
    (value : Option String) : PropDict :=
  fun m => if m = name then some value else props m

/-- Models _set_pinentry_property: with an absent value it returns at once
without writing; otherwise it writes the formatted command line (returned
as the list of written lines) and handles the one response read from the
stream with the shared epilogue. -/
def set_pinentry_property (setter_command : String) (value : Option String)
    (stream : List String) : Except PyExc Unit × List String :=
  match value with
  | none => (.ok (), [])
  | some v => (read_and_check stream, [setter_command ++ " " ++ v ++ "\n"])

/-- The outcome of one generated property-setter call: the result (normal
return or raised exception), the dict afterwards, and the lines written
to the child stdin. -/
structure SetterOutcome where
  result : Except PyExc Unit
  props : PropDict
  writes : List String

/-- Models the generated property setter: it first records the value in
the _pinentry_properties dict, then looks up the protocol keyword (a dict
access raising KeyError for an unrecognised name) and calls
_set_pinentry_property with it and the value on the given stream. -/
def property_setter (props : PropDict) (name : String)
    (value : Option String) (stream : List String) : SetterOutcome :=
  let props2 := set_property_local props name value
  match property_commands.lookup name with
  | none => { result := .error .keyError, props := props2, writes := [] }
  | some cmd =>
    let r := set_pinentry_property cmd value stream
    { result := r.1, props := props2, writes := r.2 }

theorem startsWithChars_cons {p : Char} {ps cs : List Char}
    (h : startsWithChars (p :: ps) cs = true) :
    ∃ t, cs = p :: t ∧ startsWithChars ps t = true := by
  cases cs with
  | nil => simp [startsWithChars] at h
  | cons c t =>
    simp only [startsWithChars, Bool.and_eq_true, beq_iff_eq] at h
    exact ⟨t, by rw [h.1], h.2⟩

theorem data_of_starts_err {l : String} (h : py_startswith l "ERR" = true) :
    ∃ t, l.data = 'E' :: 'R' :: 'R' :: t := by
  unfold py_startswith at h
  obtain ⟨t1, ht1, h1⟩ := startsWithChars_cons h
  obtain ⟨t2, ht2, h2⟩ := startsWithChars_cons h1
  obtain ⟨t3, ht3, _⟩ := startsWithChars_cons h2
  exact ⟨t3, by rw [ht1, ht2, ht3]⟩

theorem data_of_starts_ok {l : String} (h : py_startswith l "OK" = true) :
    ∃ t, l.data = 'O' :: 'K' :: t := by
  unfold py_startswith at h
  obtain ⟨t1, ht1, h1⟩ := startsWithChars_cons h
  obtain ⟨t2, ht2, _⟩ := startsWithChars_cons h1
  exact ⟨t2, by rw [ht1, ht2]⟩

theorem data_of_starts_data {l : String} (h : py_startswith l "D " = true) :
    ∃ t, l.data = 'D' :: ' ' :: t := by
  unfold py_startswith at h
  obtain ⟨t1, ht1, h1⟩ := startsWithChars_cons h
  obtain ⟨t2, ht2, _⟩ := startsWithChars_cons h1
  exact ⟨t2, by rw [ht1, ht2]⟩

theorem starts_err_not_ok {l : String} (h : py_startswith l "ERR" = true) :
    py_startswith l "OK" = false := by
  obtain ⟨t, ht⟩ := data_of_starts_err h
  unfold py_startswith
  rw [ht]
  simp [startsWithChars]

theorem starts_err_not_data {l : String} (h : py_startswith l "ERR" = true) :
    py_startswith l "D " = false := by
  obtain ⟨t, ht⟩ := data_of_starts_err h
  unfold py_startswith
  rw [ht]
  simp [startsWithChars]

theorem starts_ok_not_err {l : String} (h : py_startswith l "OK" = true) :
    py_startswith l "ERR" = false := by
  obtain ⟨t, ht⟩ := data_of_starts_ok h
  unfold py_startswith
  rw [ht]
  simp [startsWithChars]

theorem starts_ok_not_data {l : String} (h : py_startswith l "OK" = true) :
    py_startswith l "D " = false := by
  obtain ⟨t, ht⟩ := data_of_starts_ok h
  unfold py_startswith
  rw [ht]
  simp [startsWithChars]

theorem starts_data_not_term {l : String} (h : py_startswith l "D " = true) :
    is_terminator l = false := by
  obtain ⟨t, ht⟩ := data_of_starts_data h
  unfold is_terminator py_startswith
  rw [ht]
  simp [startsWithChars]

theorem parse_error_starts_err {l : String} {p : String × String}
    (h : parse_error l = some p) : py_startswith l "ERR" = true := by
  by_contra hc
  rw [Bool.not_eq_true] at hc
  simp [parse_error, hc] at h

theorem parse_error_none_of_not_err {l : String}
    (h : py_startswith l "ERR" = false) : parse_error l = none := by
  simp [parse_error, h]

theorem parse_error_none_of_not_term {l : String}
    (h : is_terminator l = false) : parse_error l = none := by
  apply parse_error_none_of_not_err
  unfold is_terminator at h
  exact (Bool.or_eq_false_iff.mp h).2

theorem match_data_line_none_of_starts_err {l : String}
    (h : py_startswith l "ERR" = true) : match_data_line l = none := by
  simp [match_data_line, starts_err_not_data h]

theorem match_data_line_none_of_starts_ok {l : String}
    (h : py_startswith l "OK" = true) : match_data_line l = none := by
  simp [match_data_line, starts_ok_not_data h]

theorem is_terminator_of_parse_error {l : String} {p : String × String}
    (h : parse_error l = some p) : is_terminator l = true := by
  unfold is_terminator
  rw [parse_error_starts_err h]
  simp

theorem check_last_line_err {last c d : String}
    (h : parse_error last = some (c, d)) :
    check_last_line last = .error (.pinentryError c d) := by
  have herr := parse_error_starts_err h
  simp [check_last_line, starts_err_not_ok herr, herr, h]

theorem check_last_line_malformed {last : String}
    (he : py_startswith last "ERR" = true) (hp : parse_error last = none) :
    check_last_line last = .error .typeError := by
  simp [check_last_line, starts_err_not_ok he, he, hp]

theorem read_and_check_err {stream : List String} {last c d : String}
    (hl : (read_response stream).getLast? = some last)
    (hp : parse_error last = some (c, d)) :
    read_and_check stream = .error (.pinentryError c d) := by
  unfold read_and_check
  rw [hl]
  exact check_last_line_err hp

theorem read_and_check_malformed {stream : List String} {last : String}
    (hl : (read_response stream).getLast? = some last)
    (he : py_startswith last "ERR" = true) (hp : parse_error last = none) :
    read_and_check stream = .error .typeError := by
  unfold read_and_check
  rw [hl]
  exact check_last_line_malformed he hp

theorem read_response_append {pre xs : List String}
    (h : ∀ l ∈ pre, is_terminator l = false) :
    read_response (pre ++ xs) = pre ++ read_response xs := by
  induction pre with
  | nil => rfl
  | cons a t ih =>
    have ha := h a (by simp)
    simp only [List.cons_append, read_response, ha, Bool.false_eq_true,
      if_false, List.cons.injEq, true_and]
    exact ih (fun l hl => h l (by simp [hl]))

theorem read_response_term_cons {l : String} {xs : List String}
    (h : is_terminator l = true) : read_response (l :: xs) = [l] := by
  simp [read_response, h]

theorem scan_pin_lines_append {pre xs : List String}
    (h : ∀ l ∈ pre, match_data_line l = none ∧ parse_error l = none) :
    scan_pin_lines (pre ++ xs) = scan_pin_lines xs := by
  induction pre with
  | nil => rfl
  | cons a t ih =>
    have ha := h a (by simp)
    simp only [List.cons_append, scan_pin_lines, ha.1, ha.2]
    exact ih (fun l hl => h l (by simp [hl]))

theorem getter_after_set (props : PropDict) (n : String) (v : Option String) :
    property_getter (set_property_local props n v) n = .ok v := by
  simp [property_getter, set_property_local]

/-- Claim C1, counterexample: with the description option previously set
to old, an assignment of new answered by the terminator ERR 1 bad raises
PinentryError with code 1 and description bad, yet the getter afterwards
returns the rejected value new rather than the prior value old, so the
local option cache is not left unchanged as the claim states. -/
theorem set_option_err_keeps_rejected_value_cex :
    (property_setter (set_property_local init_properties "description" (some "old"))
        "description" (some "new") ["ERR 1 bad\n"]).result
      = .error (.pinentryError "1" "bad")
    ∧ property_getter (set_property_local init_properties "description" (some "old"))
        "description" = .ok (some "old")
    ∧ property_getter (property_setter
          (set_property_local init_properties "description" (some "old"))
          "description" (some "new") ["ERR 1 bad\n"]).props "description"
      = .ok (some "new")
    ∧ (Except.ok (some "new") : Except PyExc (Option String)) ≠ .ok (some "old") :=
  ⟨by decide, by decide, by decide, by decide⟩

/-- Claim C1, amended: for every recognised option name and every present
value, when the agent answers the assignment with a well-formed ERR
terminator, the setter raises PinentryError carrying that line's code and
description, but the local option cache does not stay unchanged: the
rejected value was recorded before the round-trip, and the getter
afterwards returns the rejected value. -/
theorem set_option_err_raises_and_records_rejected_value
    (props : PropDict) (name cmd v : String) (stream : List String)
    (last c d : String)
    (hcmd : property_commands.lookup name = some cmd)
    (hl : (read_response stream).getLast? = some last)
    (hp : parse_error last = some (c, d)) :
    (property_setter props name (some v) stream).result
        = .error (.pinentryError c d)
    ∧ property_getter (property_setter props name (some v) stream).props name
        = .ok (some v) := by
  have h1 : property_setter props name (some v) stream =
      { result := read_and_check stream,
        props := set_property_local props name (some v),
        writes := [cmd ++ " " ++ v ++ "\n"] } := by
    simp [property_setter, set_pinentry_property, hcmd]
  rw [h1]
  exact ⟨read_and_check_err hl hp, getter_after_set _ _ _⟩

theorem set_option_err_raises_and_records_rejected_value_witness :
    (property_setter (set_property_local init_properties "title" (some "old"))
        "title" (some "new") ["ERR 7 refused\n"]).result
      = .error (.pinentryError "7" "refused")
    ∧ property_getter (property_setter
          (set_property_local init_properties "title" (some "old"))
          "title" (some "new") ["ERR 7 refused\n"]).props "title"
      = .ok (some "new") :=
  set_option_err_raises_and_records_rejected_value
    (set_property_local init_properties "title" (some "old"))
    "title" "SETTITLE" "new" ["ERR 7 refused\n"] "ERR 7 refused\n" "7" "refused"
    (by decide) (by decide) (by decide)

/-- Claim C2, counterexample: a closed stream holding one non-terminator
line (and likewise the empty closed stream) makes read_response return
the partial, respectively empty, sequence of lines read so far rather
than raising any error. -/
theorem read_response_no_terminator_returns_partial_cex :
    (∀ l ∈ (["S hello\n"] : List String), is_terminator l = false)
    ∧ read_response ["S hello\n"] = ["S hello\n"]
    ∧ read_response ([] : List String) = [] :=
  ⟨by decide, by decide, by decide⟩

/-- Claim C2, amended: when the stream closes before any terminator line,
read_response does not raise: it returns exactly the partial (possibly
empty) sequence of lines read so far; the empty case then surfaces as an
IndexError in the callers indexing the last response line, as
ask_for_confirmation and show_message do on an immediately closed
stream. -/
theorem read_response_no_terminator_returns_partial :
    (∀ stream : List String, (∀ l ∈ stream, is_terminator l = false) →
      read_response stream = stream)
    ∧ ask_for_confirmation [] = .error .indexError
    ∧ show_message [] = .error .indexError := by
  refine ⟨?_, by decide, by decide⟩
  intro stream h
  have h2 := @read_response_append stream [] h
  simpa [read_response] using h2

theorem read_response_no_terminator_returns_partial_witness :
    read_response ["S hello\n", "S world\n"] = ["S hello\n", "S world\n"] :=
  read_response_no_terminator_returns_partial.1 ["S hello\n", "S world\n"] (by decide)

/-- Claim C3: a CONFIRM round-trip whose terminator is a well-formed ERR
line with a description different from canceled makes
ask_for_confirmation raise PinentryError carrying that line's code and
description; it neither returns a boolean nor falls through. -/
theorem confirm_other_err_raises
    (stream : List String) (last c d : String)
    (hl : (read_response stream).getLast? = some last)
    (hp : parse_error last = some (c, d))
    (hd : d ≠ "canceled") :
    ask_for_confirmation stream = .error (.pinentryError c d) := by
  have herr := parse_error_starts_err hp
  unfold ask_for_confirmation
  rw [hl]
  simp [starts_err_not_ok herr, herr, hp, hd]

theorem confirm_other_err_raises_witness :
    ask_for_confirmation ["ERR 1 generic failure\n"]
      = .error (.pinentryError "1" "generic failure") :=
  confirm_other_err_raises ["ERR 1 generic failure\n"] "ERR 1 generic failure\n"
    "1" "generic failure" (by decide) (by decide) (by decide)

/-- Claim C4: for every combination of parameters, the argument vector
passed to the spawned child is exactly the binary path, then the
no-global-grab flag when global_grab is false, then the display pair when
a display value is resolved from the explicit argument or else the
environment, then always the timeout pair. -/
theorem init_argument_vector_shape
    (binary_path : String) (global_grab : Bool) (timeout : Int)
    (display env_display : Option String) :
    build_proc binary_path global_grab timeout display env_display
      = [binary_path]
        ++ (if global_grab then [] else ["--no-global-grab"])
        ++ ((display.orElse (fun _ => env_display)).elim []
              (fun d => ["--display", d]))
        ++ ["--timeout", toString timeout] := by
  cases global_grab <;> cases display <;> cases env_display <;>
    simp [build_proc, Option.orElse, Option.elim]

/-- Claim C5: when the greeting response ends in a well-formed ERR
terminator, constructing the session raises PinentryError carrying that
line's code and description, and the spawned child process is terminated
by the finalisation of the partially constructed object, so construction
failure leaks no running child. -/
theorem init_err_greeting_raises_and_terminates
    (stream : List String) (last c d : String)
    (hl : (read_response stream).getLast? = some last)
    (hp : parse_error last = some (c, d)) :
    init_session stream
      = (.error (.pinentryError c d), { running := false }) := by
  have h1 : init_greeting stream = .error (.pinentryError c d) :=
    read_and_check_err hl hp
  simp [init_session, h1, terminate_proc]

theorem init_err_greeting_raises_and_terminates_witness :
    init_session ["ERR 1 cannot open\n"]
      = (.error (.pinentryError "1" "cannot open"), { running := false }) :=
  init_err_greeting_raises_and_terminates ["ERR 1 cannot open\n"]
    "ERR 1 cannot open\n" "1" "cannot open" (by decide) (by decide)

/-- Claim C6: a CONFIRM round-trip whose terminator is a well-formed ERR
line with description exactly canceled makes ask_for_confirmation return
False without raising, and one whose terminator is an OK line makes it
return True. -/
theorem confirm_ok_true_canceled_false :
    (∀ (stream : List String) (last c : String),
      (read_response stream).getLast? = some last →
      parse_error last = some (c, "canceled") →
      ask_for_confirmation stream = .ok (some false))
    ∧ (∀ (stream : List String) (last : String),
      (read_response stream).getLast? = some last →
      py_startswith last "OK" = true →
      ask_for_confirmation stream = .ok (some true)) := by
  constructor
  · intro stream last c hl hp
    have herr := parse_error_starts_err hp
    unfold ask_for_confirmation
    rw [hl]
    simp [starts_err_not_ok herr, herr, hp]
  · intro stream last hl hok
    unfold ask_for_confirmation
    rw [hl]
    simp [hok]

theorem confirm_ok_true_canceled_false_witness :
    ask_for_confirmation ["ERR 83886179 canceled\n"] = .ok (some false)
    ∧ ask_for_confirmation ["OK\n"] = .ok (some true) :=
  ⟨confirm_ok_true_canceled_false.1 ["ERR 83886179 canceled\n"]
      "ERR 83886179 canceled\n" "83886179" (by decide) (by decide),
    confirm_ok_true_canceled_false.2 ["OK\n"] "OK\n" (by decide) (by decide)⟩

/-- Claim C7: ask_for_pin scans the lines of the GETPIN response in order
and returns exactly the payload of the first data line; a well-formed ERR
line met before any data line raises PinentryError with its code and
description; in particular the response of the data line hunter2 followed
by OK yields the string hunter2. -/
theorem ask_for_pin_first_data_line :
    (∀ (pre : List String) (dline : String) (rest : List String) (p : String),
      (∀ l ∈ pre, is_terminator l = false ∧ match_data_line l = none) →
      match_data_line dline = some p →
      ask_for_pin (pre ++ dline :: rest) = .ok (some p))
    ∧ (∀ (pre : List String) (eline : String) (rest : List String) (c d : String),
      (∀ l ∈ pre, is_terminator l = false ∧ match_data_line l = none) →
      parse_error eline = some (c, d) →
      ask_for_pin (pre ++ eline :: rest) = .error (.pinentryError c d))
    ∧ ask_for_pin ["D hunter2\n", "OK\n"] = .ok (some "hunter2") := by
  refine ⟨?_, ?_, by decide⟩
  · intro pre dline rest p hpre hd
    have hdstart : py_startswith dline "D " = true := by
      by_contra hc
      rw [Bool.not_eq_true] at hc
      simp [match_data_line, hc] at hd
    have hterm : is_terminator dline = false := starts_data_not_term hdstart
    unfold ask_for_pin
    rw [read_response_append (fun l hl => (hpre l hl).1)]
    rw [show read_response (dline :: rest) = dline :: read_response rest by
      simp [read_response, hterm]]
    rw [scan_pin_lines_append (fun l hl =>
      ⟨(hpre l hl).2, parse_error_none_of_not_term (hpre l hl).1⟩)]
    simp [scan_pin_lines, hd]
  · intro pre eline rest c d hpre hp
    have herr := parse_error_starts_err hp
    unfold ask_for_pin
    rw [read_response_append (fun l hl => (hpre l hl).1)]
    rw [read_response_term_cons (is_terminator_of_parse_error hp)]
    rw [scan_pin_lines_append (fun l hl =>
      ⟨(hpre l hl).2, parse_error_none_of_not_term (hpre l hl).1⟩)]
    simp [scan_pin_lines, match_data_line_none_of_starts_err herr, hp]

theorem ask_for_pin_first_data_line_witness :
    ask_for_pin ["S info\n", "D hunter2\n", "OK\n"] = .ok (some "hunter2")
    ∧ ask_for_pin ["S info\n", "ERR 1 generic failure\n"]
        = .error (.pinentryError "1" "generic failure") :=
  ⟨ask_for_pin_first_data_line.1 ["S info\n"] "D hunter2\n" ["OK\n"] "hunter2"
      (by decide) (by decide),
    ask_for_pin_first_data_line.2.1 ["S info\n"] "ERR 1 generic failure\n" []
      "1" "generic failure" (by decide) (by decide)⟩

/-- Claim C8: a GETPIN response terminated by an OK line and containing
no data line makes ask_for_pin return the absent value rather than
raising an error. -/
theorem ask_for_pin_ok_without_data_returns_none
    (pre : List String) (okline : String) (rest : List String)
    (hpre : ∀ l ∈ pre, is_terminator l = false ∧ match_data_line l = none)
    (hok : py_startswith okline "OK" = true) :
    ask_for_pin (pre ++ okline :: rest) = .ok none := by
  have hterm : is_terminator okline = true := by
    unfold is_terminator
    rw [hok]
    simp
  unfold ask_for_pin
  rw [read_response_append (fun l hl => (hpre l hl).1)]
  rw [read_response_term_cons hterm]
  rw [scan_pin_lines_append (fun l hl =>
    ⟨(hpre l hl).2, parse_error_none_of_not_term (hpre l hl).1⟩)]
  simp [scan_pin_lines, match_data_line_none_of_starts_ok hok,
    parse_error_none_of_not_err (starts_ok_not_err hok)]

theorem ask_for_pin_ok_without_data_returns_none_witness :
    ask_for_pin ["S info\n", "OK\n"] = .ok none :=
  ask_for_pin_ok_without_data_returns_none ["S info\n"] "OK\n" []
    (by decide) (by decide)

/-- Claim C9: assigning an absent value to a recognised option writes no
command line to the child process, returns normally, and records the
unset value, so the getter afterwards returns the absent value whatever
the cache previously held. -/
theorem set_option_absent_no_roundtrip
    (props : PropDict) (name cmd : String) (stream : List String)
    (hcmd : property_commands.lookup name = some cmd) :
    (property_setter props name none stream).writes = []
    ∧ (property_setter props name none stream).result = .ok ()
    ∧ property_getter (property_setter props name none stream).props name
        = .ok none := by
  have h1 : property_setter props name none stream =
      { result := .ok (), props := set_property_local props name none,
        writes := [] } := by
    simp [property_setter, set_pinentry_property, hcmd]
  rw [h1]
  exact ⟨rfl, rfl, getter_after_set _ _ _⟩

theorem set_option_absent_no_roundtrip_witness :
    (property_setter (set_property_local init_properties "description" (some "x"))
        "description" none []).writes = []
    ∧ (property_setter (set_property_local init_properties "description" (some "x"))
        "description" none []).result = .ok ()
    ∧ property_getter (property_setter
          (set_property_local init_properties "description" (some "x"))
          "description" none []).props "description" = .ok none :=
  set_option_absent_no_roundtrip
    (set_property_local init_properties "description" (some "x"))
    "description" "SETDESC" [] (by decide)

/-- Claim C10: when the terminator is an ERR line that the error regex
does not match, parse_error yields nothing and the operations that
unconditionally destructure its result fail with TypeError rather than
PinentryError, namely session construction, option assignment and
show_message; moreover the PinentryError outcome of show_message is
reachable only from a well-formed ERR last line whose code and
description it carries, and the two sample malformed lines, ERR alone
and ERR oops, indeed fail the regex. -/
theorem malformed_err_gives_typeerror :
    (∀ (stream : List String) (last : String),
      (read_response stream).getLast? = some last →
      py_startswith last "ERR" = true →
      parse_error last = none →
      show_message stream = .error .typeError
      ∧ (init_session stream).1 = .error .typeError
      ∧ ∀ (props : PropDict) (name cmd v : String),
          property_commands.lookup name = some cmd →
          (property_setter props name (some v) stream).result
            = .error .typeError)
    ∧ (∀ (stream : List String) (c d : String),
      show_message stream = .error (.pinentryError c d) →
      ∃ last, (read_response stream).getLast? = some last
        ∧ parse_error last = some (c, d))
    ∧ parse_error "ERR\n" = none ∧ parse_error "ERR oops\n" = none := by
  refine ⟨?_, ?_, by decide, by decide⟩
  · intro stream last hl he hp
    have hrc : read_and_check stream = .error .typeError :=
      read_and_check_malformed hl he hp
    refine ⟨hrc, ?_, ?_⟩
    · simp [init_session, init_greeting, hrc]
    · intro props name cmd v hcmd
      simp [property_setter, set_pinentry_property, hcmd, hrc]
  · intro stream c d h
    unfold show_message read_and_check at h
    cases hl : (read_response stream).getLast? with
    | none => rw [hl] at h; simp at h
    | some last =>
      rw [hl] at h
      refine ⟨last, rfl, ?_⟩
      unfold check_last_line at h
      by_cases hok : py_startswith last "OK" = true
      · simp [hok] at h
      · rw [Bool.not_eq_true] at hok
        simp only [hok, Bool.false_eq_true, if_false] at h
        by_cases herr : py_startswith last "ERR" = true
        · simp only [herr, if_true] at h
          cases hpe : parse_error last with
          | none => rw [hpe] at h; simp at h
          | some cd =>
            rw [hpe] at h
            obtain ⟨c', d'⟩ := cd
            simp only [Except.error.injEq, PyExc.pinentryError.injEq] at h
            rw [h.1, h.2]
        · rw [Bool.not_eq_true] at herr
          simp [herr] at h

theorem malformed_err_gives_typeerror_witness :
    show_message ["ERR oops\n"] = .error .typeError
    ∧ (init_session ["ERR oops\n"]).1 = .error .typeError
    ∧ (property_setter init_properties "description" (some "x")
        ["ERR oops\n"]).result = .error .typeError
    ∧ ∃ last, (read_response ["ERR 5 boom\n"]).getLast? = some last
        ∧ parse_error last = some ("5", "boom") := by
  have h := malformed_err_gives_typeerror.1 ["ERR oops\n"] "ERR oops\n"
    (by decide) (by decide) (by decide)
  exact ⟨h.1, h.2.1, h.2.2 init_properties "description" "SETDESC" "x" (by decide),
    malformed_err_gives_typeerror.2.1 ["ERR 5 boom\n"] "5" "boom" (by decide)⟩

end Pynentry
